import Mathlib

/-!
Shallow embedding of jimidarke/ledSignController:
- src/updateFeed.py (feed-fetching utility, namespace UpdateFeed)
- src/esphome-betabrite/components/betabrite/__init__.py
  (ESPHome configuration validation and code generation, namespace Betabrite)
Pure functions of the Python sources are translated into executable Lean
definitions; network responses and MQTT side effects become explicit data
(HttpResponse inputs, lists of MqttAction outputs).
-/

/-- Whether an `Except` computation succeeded (a validator accepted). -/
def isOkE {ε α : Type} : Except ε α → Bool
  | Except.ok _ => true
  | Except.error _ => false

namespace UpdateFeed

/-- Constant `NUM_STORIES = 5` from updateFeed.py. -/
def NUM_STORIES : Nat := 5

/-- Constant `MQTT_BASE_TOPIC = "ledSign/feed"` from updateFeed.py. -/
def MQTT_BASE_TOPIC : String := "ledSign/feed"

/-- Constant `MQTT_BROKER` from updateFeed.py. -/
def MQTT_BROKER : String := "192.168.1.40"

/-- Constant `MQTT_PORT = 1883` from updateFeed.py. -/
def MQTT_PORT : Nat := 1883

/-- `requests.codes.ok`, the HTTP 200 status. -/
def codes_ok : Nat := 200

/-- An `<item>` element of the fetched RSS document, reduced to the text of
its `<title>` child (items lacking a title make the Python raise and are
outside this model). -/
structure RssItem where
  title : String
deriving DecidableEq, Repr

/-- The body of `getNews`'s for-loop over `root.findall('.//item')`:
`c` counts processed items; after appending a title the loop breaks once
`c >= NUM_STORIES`. -/
def getNewsLoop : Nat → List RssItem → List String → List String
  | _, [], acc => acc
  | c, item :: rest, acc =>
    let c2 := c + 1
    let acc2 := acc ++ [item.title]
    if NUM_STORIES ≤ c2 then acc2 else getNewsLoop c2 rest acc2

/-- `getNews` from updateFeed.py: collect titles of the document's items,
stopping after `NUM_STORIES` of them. -/
def getNews (root : List RssItem) : List String :=
  getNewsLoop 0 root []

/-- An HTTP response as the trivia code observes it: a status code and the
decoded JSON array, each element represented by its `json.dumps` encoding. -/
structure HttpResponse where
  status_code : Nat
  items : List String
deriving DecidableEq, Repr

/-- `getTrivia` from updateFeed.py: on a 200 response return
`json.dumps(trivia[0])` (an `IndexError` escapes if the array is empty,
modelled as `Except.error`); on any other status return `None`. -/
def getTrivia (resp : HttpResponse) : Except String (Option String) :=
  if resp.status_code = codes_ok then
    match resp.items with
    | [] => Except.error "IndexError"
    | x :: _ => Except.ok (some x)
  else
    Except.ok none

/-- Observable effects on the paho MQTT client. -/
inductive MqttAction where
  | connect (host : String) (port keepalive : Nat)
  | publish (topic : String) (payload : Option String) (retain : Bool)
deriving DecidableEq, Repr

/-- The MQTT client's connection state. -/
structure MqttState where
  connected : Bool
deriving DecidableEq, Repr

/-- `sendToMqtt` from updateFeed.py: connect first when not connected, then
publish the message to `MQTT_BASE_TOPIC/<title>` with `retain=True`. -/
def sendToMqtt (st : MqttState) (title : String) (message : Option String) :
    MqttState × List MqttAction :=
  let (st, pre) :=
    if st.connected then (st, ([] : List MqttAction))
    else (⟨true⟩, [MqttAction.connect MQTT_BROKER MQTT_PORT 60])
  (st, pre ++ [MqttAction.publish (MQTT_BASE_TOPIC ++ "/" ++ title) message true])

/-- A plain model of `json.dumps` on a list of strings (escaping of special
characters inside the strings is not modelled; no claim depends on it). -/
def jsonDumps (xs : List String) : String :=
  "[" ++ String.intercalate ", " (xs.map (fun s => "\x22" ++ s ++ "\x22")) ++ "]"

/-- `main` from updateFeed.py. `getFacts` and `getJokes` only produce data
for payloads no claim inspects, so their results enter as parameters
(`facts` is the JSON string `getFacts` returns, `jokes` the list of joke
strings); `getTrivia` and `getNews` are applied to their fetched inputs.
After fetching, the client connects and the four messages are published in
source order; an uncaught exception from `getTrivia` aborts the run. -/
def mainRun (facts : String) (triviaResp : HttpResponse) (jokes : List String)
    (newsRoot : List RssItem) : Except String (List MqttAction) := do
  let trivia ← getTrivia triviaResp
  let news := getNews newsRoot
  let st : MqttState := ⟨true⟩
  let (st, a1) := sendToMqtt st "news/list" (some (jsonDumps news))
  let (st, a2) := sendToMqtt st "jokes/list" (some (jsonDumps jokes))
  let (st, a3) := sendToMqtt st "facts/list" (some facts)
  let (_, a4) := sendToMqtt st "trivia/question" trivia
  pure ([MqttAction.connect MQTT_BROKER MQTT_PORT 60] ++ a1 ++ a2 ++ a3 ++ a4)

end UpdateFeed

namespace Betabrite

/-- `SIGN_TYPES` dict from `__init__.py`: YAML option to C++ enum name. -/
def SIGN_TYPES : List (String × String) :=
  [("all", "ST_ALL"),
   ("betabrite", "ST_BETABRITE"),
   ("1line", "ST_1LINE"),
   ("2line", "ST_2LINE"),
   ("alphavision", "ST_ALPHA_VISION"),
   ("alphaeclipse", "ST_ALPHA_ECLIPSE_3600"),
   ("alphapremiere", "ST_ALPHA_PREMIERE")]

/-- The keys of `SIGN_TYPES`, which is what `cv.one_of(*SIGN_TYPES)` iterates. -/
def SIGN_TYPE_KEYS : List String := SIGN_TYPES.map Prod.fst

/-- `COLORS` list from `__init__.py`. -/
def COLORS : List String :=
  ["red", "green", "amber", "dimred", "dimgreen", "brown",
   "orange", "yellow", "rainbow1", "rainbow2", "colormix", "autocolor"]

/-- `MODES` list from `__init__.py`. -/
def MODES : List String :=
  ["rotate", "hold", "flash", "rollup", "rolldown", "rollleft",
   "rollright", "wipeup", "wipedown", "wipeleft", "wiperight",
   "scroll", "special", "automode", "rollin", "rollout",
   "wipein", "wipeout", "comprotate", "explode", "clock"]

/-- `EFFECTS` list from `__init__.py`. -/
def EFFECTS : List String :=
  ["twinkle", "sparkle", "snow", "interlock", "switch", "slide",
   "spray", "starburst", "welcome", "slots", "newsflash", "trumpet",
   "cyclecolors", "thankyou", "nosmoking", "dontdrinkanddrive",
   "fishimal", "fireworks", "turballoon", "bomb"]

/-- `CHARSETS` list from `__init__.py`. -/
def CHARSETS : List String :=
  ["5high", "5stroke", "7high", "7stroke", "7highfancy",
   "10high", "7shadow", "fhighfancy", "fhigh", "7shadowfancy",
   "5wide", "7wide", "7widefancy", "5widestroke"]

/-- `POSITIONS` list from `__init__.py`. -/
def POSITIONS : List String :=
  ["midline", "topline", "botline", "fill", "left", "right"]

/-- `CLOCK_FORMATS` list from `__init__.py`. -/
def CLOCK_FORMATS : List String := ["12h", "24h"]

/-- ASCII lowercasing of one character, as Python `str.lower()` acts on the
ASCII range (every enumeration option is ASCII, so nothing more of
`str.lower()` is observable here). -/
def char_lower (c : Char) : Char :=
  if 'A' ≤ c ∧ c ≤ 'Z' then Char.ofNat (c.toNat + 32) else c

/-- Python `value.lower()` (ASCII range). -/
def str_lower (s : String) : String := String.mk (s.data.map char_lower)

/-- `cv.one_of(*options, lower=True)`: lowercase the value, accept it iff
the lowered value is in the closed option list, else raise `cv.Invalid`. -/
def one_of_lower (options : List String) (v : String) : Except String String :=
  let low := str_lower v
  if low ∈ options then Except.ok low
  else Except.error "Unknown value"

/-- An `cv.Optional(key, default=d)` field validated by `one_of_lower`. -/
def opt_one_of (options : List String) (dflt : String) :
    Option String → Except String String
  | none => Except.ok dflt
  | some v => one_of_lower options v

/-- `cv.int_range(min=lo, max=hi)`. -/
def int_range (lo hi : Int) (n : Int) : Except String Int :=
  if lo ≤ n ∧ n ≤ hi then Except.ok n
  else Except.error "int out of range"

/-- An `cv.Optional(key, default=d)` field validated by `int_range`. -/
def opt_int_range (lo hi dflt : Int) : Option Int → Except String Int
  | none => Except.ok dflt
  | some n => int_range lo hi n

/-- `validate_address` from `__init__.py`: a strict string of exactly two
characters; anything else raises `cv.Invalid`. -/
def validate_address (v : String) : Except String String :=
  if v.length = 2 then Except.ok v
  else Except.error "Address must be exactly 2 characters"

/-- An `cv.Optional` sub-block with no default: absent stays absent,
present is validated. -/
def optField (f : α → Except String β) : Option α → Except String (Option β)
  | none => Except.ok none
  | some x => (f x).map some

/-- The `address` key: `cv.Optional(CONF_ADDRESS, default="00")` validated
by `validate_address`. -/
def opt_address : Option String → Except String String
  | none => Except.ok "00"
  | some a => validate_address a

/-- A raw YAML offline-message block before validation. Durations arrive as
already-parsed millisecond counts (`cv.positive_time_period_milliseconds`
string parsing is outside the model). -/
structure RawOfflineMessage where
  text : String
  color : Option String := none
  mode : Option String := none
  duration : Option Nat := none
  effect : Option String := none
  charset : Option String := none
  position : Option String := none
  speed : Option Int := none
deriving DecidableEq, Repr

/-- A validated offline message (output of `OFFLINE_MESSAGE_SCHEMA`).
`effect` stays absent when the key was omitted: its `cv.Optional` has no
default. -/
structure OfflineMessage where
  text : String
  color : String
  mode : String
  duration : Nat
  effect : Option String
  charset : String
  position : String
  speed : Int
deriving DecidableEq, Repr

/-- `OFFLINE_MESSAGE_SCHEMA` from `__init__.py`. -/
def validateOfflineMessage (m : RawOfflineMessage) :
    Except String OfflineMessage := do
  let color ← opt_one_of COLORS "green" m.color
  let mode ← opt_one_of MODES "rotate" m.mode
  let duration := m.duration.getD 10000
  let effect ← optField (one_of_lower EFFECTS) m.effect
  let charset ← opt_one_of CHARSETS "7high" m.charset
  let position ← opt_one_of POSITIONS "topline" m.position
  let speed ← opt_int_range 1 5 3 m.speed
  pure { text := m.text, color := color, mode := mode, duration := duration,
         effect := effect, charset := charset, position := position,
         speed := speed }

/-- A raw YAML `defaults:` block before validation. -/
structure RawDefaults where
  color : Option String := none
  mode : Option String := none
  charset : Option String := none
  position : Option String := none
  speed : Option Int := none
  effect : Option String := none
deriving DecidableEq, Repr

/-- A validated `defaults:` block (output of `DEFAULTS_SCHEMA`). -/
structure Defaults where
  color : String
  mode : String
  charset : String
  position : String
  speed : Int
  effect : String
deriving DecidableEq, Repr

/-- `DEFAULTS_SCHEMA` from `__init__.py`. -/
def validateDefaults (d : RawDefaults) : Except String Defaults := do
  let color ← opt_one_of COLORS "green" d.color
  let mode ← opt_one_of MODES "rotate" d.mode
  let charset ← opt_one_of CHARSETS "7high" d.charset
  let position ← opt_one_of POSITIONS "topline" d.position
  let speed ← opt_int_range 1 5 3 d.speed
  let effect ← opt_one_of EFFECTS "twinkle" d.effect
  pure { color := color, mode := mode, charset := charset,
         position := position, speed := speed, effect := effect }

/-- A raw YAML `clock:` block before validation. -/
structure RawClock where
  enabled : Option Bool := none
  interval : Option Nat := none
  duration : Option Nat := none
  format : Option String := none
  color : Option String := none
deriving DecidableEq, Repr

/-- A validated `clock:` block (output of `CLOCK_SCHEMA`); intervals and
durations in milliseconds. -/
structure ClockConfig where
  enabled : Bool
  interval : Nat
  duration : Nat
  format : String
  color : String
deriving DecidableEq, Repr

/-- `CLOCK_SCHEMA` from `__init__.py`. -/
def validateClock (k : RawClock) : Except String ClockConfig := do
  let enabled := k.enabled.getD true
  let interval := k.interval.getD 60000
  let duration := k.duration.getD 4000
  let format ← opt_one_of CLOCK_FORMATS "12h" k.format
  let color ← opt_one_of COLORS "amber" k.color
  pure { enabled := enabled, interval := interval, duration := duration,
         format := format, color := color }

/-- A raw YAML `priority:` block before validation. -/
structure RawPriority where
  warning_duration : Option Nat := none
  default_duration : Option Nat := none
deriving DecidableEq, Repr

/-- A validated `priority:` block (output of `PRIORITY_SCHEMA`); both
durations are `cv.positive_time_period_milliseconds`, so stored in
milliseconds ("2500ms" → 2500, "25s" → 25000). -/
structure PriorityConfig where
  warning_duration : Nat
  default_duration : Nat
deriving DecidableEq, Repr

/-- `PRIORITY_SCHEMA` from `__init__.py`. -/
def validatePriority (p : RawPriority) : Except String PriorityConfig :=
  Except.ok { warning_duration := p.warning_duration.getD 2500,
              default_duration := p.default_duration.getD 25000 }

/-- A raw YAML `betabrite:` block before validation (the generated-ID,
component and UART keys carry no data relevant to any claim). -/
structure RawConfig where
  sign_type : Option String := none
  address : Option String := none
  max_files : Option Int := none
  defaults : Option RawDefaults := none
  offline_messages : Option (List RawOfflineMessage) := none
  clock : Option RawClock := none
  priority : Option RawPriority := none
deriving DecidableEq, Repr

/-- A validated configuration (output of `CONFIG_SCHEMA`), the only value
`to_code` ever receives. -/
structure Config where
  sign_type : String
  address : String
  max_files : Int
  defaults : Option Defaults
  offline_messages : Option (List OfflineMessage)
  clock : Option ClockConfig
  priority : Option PriorityConfig
deriving DecidableEq, Repr

/-- `CONFIG_SCHEMA` from `__init__.py`. -/
def validateConfig (c : RawConfig) : Except String Config := do
  let sign_type ← opt_one_of SIGN_TYPE_KEYS "all" c.sign_type
  let address ← opt_address c.address
  let max_files ← opt_int_range 1 26 5 c.max_files
  let defaults ← optField validateDefaults c.defaults
  let offline_messages ←
    optField (fun ms => ms.mapM validateOfflineMessage) c.offline_messages
  let clock ← optField validateClock c.clock
  let priority ← optField validatePriority c.priority
  pure { sign_type := sign_type, address := address, max_files := max_files,
         defaults := defaults, offline_messages := offline_messages,
         clock := clock, priority := priority }

/-- One `cg.add(var.…)` call emitted by `to_code`, with the data it passes. -/
inductive Call where
  | setSignType (cppEnum : String)
  | setAddress (a : String)
  | setMaxFiles (n : Int)
  | setDefaultColor (c : String)
  | setDefaultMode (m : String)
  | setDefaultCharset (c : String)
  | setDefaultPosition (p : String)
  | setDefaultSpeed (s : Int)
  | setDefaultEffect (e : String)
  | setClockEnabled (b : Bool)
  | setClockInterval (n : Nat)
  | setClockDuration (n : Nat)
  | setClock24h (b : Bool)
  | setClockColor (c : String)
  | setPriorityWarningDuration (n : Nat)
  | setPriorityDefaultDuration (n : Nat)
  | addOfflineMessage (text color mode : String) (duration : Nat)
      (effect charset position : String) (speed : Int)
deriving DecidableEq, Repr

/-- Recognizes the `add_offline_message` calls among `to_code`'s output. -/
def Call.isAddOffline : Call → Bool
  | Call.addOfflineMessage _ _ _ _ _ _ _ _ => true
  | _ => false

/-- The `add_offline_message` call `to_code` builds for one validated
message: `msg.get(CONF_EFFECT, "")` then `effect if effect else ""` turns an
absent effect into the empty string. -/
def offlineCall (m : OfflineMessage) : Call :=
  Call.addOfflineMessage m.text m.color m.mode m.duration (m.effect.getD "")
    m.charset m.position m.speed

/-- `to_code` from `__init__.py`, as the sequence of `cg.add` calls it emits
(component/UART registration carries no data and is omitted). The sign type
passes through the `SIGN_TYPES` lookup; all other values come verbatim from
the validated config. -/
def to_code (c : Config) : List Call :=
  [Call.setSignType ((SIGN_TYPES.lookup c.sign_type).getD ""),
   Call.setAddress c.address,
   Call.setMaxFiles c.max_files]
  ++ (match c.defaults with
      | none => []
      | some d =>
        [Call.setDefaultColor d.color, Call.setDefaultMode d.mode,
         Call.setDefaultCharset d.charset, Call.setDefaultPosition d.position,
         Call.setDefaultSpeed d.speed, Call.setDefaultEffect d.effect])
  ++ (match c.clock with
      | none => []
      | some k =>
        [Call.setClockEnabled k.enabled, Call.setClockInterval k.interval,
         Call.setClockDuration k.duration, Call.setClock24h (k.format == "24h"),
         Call.setClockColor k.color])
  ++ (match c.priority with
      | none => []
      | some p =>
        [Call.setPriorityWarningDuration p.warning_duration,
         Call.setPriorityDefaultDuration p.default_duration])
  ++ (match c.offline_messages with
      | none => []
      | some ms => ms.map offlineCall)

/-- A raw `betabrite.priority` action invocation before validation: the
required text and the optional duration, the latter as an already-parsed
second count (`cv.positive_time_period_seconds`). -/
structure RawPriorityAction where
  text : String
  duration : Option Nat := none
deriving DecidableEq, Repr

/-- A validated `betabrite.priority` action config; duration in seconds. -/
structure PriorityActionConfig where
  text : String
  duration : Nat
deriving DecidableEq, Repr

/-- `PRIORITY_MESSAGE_ACTION_SCHEMA` from `__init__.py`:
`cv.Optional(CONF_DURATION, default="25s")` fills an omitted duration with
25 seconds, so the validated config always carries a duration. -/
def validatePriorityAction (a : RawPriorityAction) : PriorityActionConfig :=
  { text := a.text, duration := a.duration.getD 25 }

/-- One `cg.add(var.…)` call of an action's code generation. -/
inductive ActionCall where
  | setMessage (t : String)
  | setDuration (d : Nat)
deriving DecidableEq, Repr

/-- `betabrite_priority_action_to_code` from `__init__.py`: always emits
`set_message` then `set_duration` with the validated duration. -/
def betabrite_priority_action_to_code (c : PriorityActionConfig) :
    List ActionCall :=
  [ActionCall.setMessage c.text, ActionCall.setDuration c.duration]

end Betabrite

section Theorems

open UpdateFeed Betabrite

theorem ebind_ok {ε α β : Type} (a : α) (f : α → Except ε β) :
    (Except.ok a >>= f) = f a := rfl

theorem ebind_err {ε α β : Type} (e : ε) (f : α → Except ε β) :
    ((Except.error e : Except ε α) >>= f) = Except.error e := rfl

theorem epure {ε α : Type} (a : α) : (pure a : Except ε α) = Except.ok a := rfl

theorem isOkE_iff {ε α : Type} (e : Except ε α) :
    isOkE e = true ↔ ∃ a, e = Except.ok a := by
  cases e <;> simp [isOkE]

theorem validateOfflineMessage_ok_iff (rm : RawOfflineMessage)
    (m : OfflineMessage) :
    validateOfflineMessage rm = Except.ok m ↔
      opt_one_of COLORS "green" rm.color = Except.ok m.color ∧
      opt_one_of MODES "rotate" rm.mode = Except.ok m.mode ∧
      m.duration = rm.duration.getD 10000 ∧
      optField (one_of_lower EFFECTS) rm.effect = Except.ok m.effect ∧
      opt_one_of CHARSETS "7high" rm.charset = Except.ok m.charset ∧
      opt_one_of POSITIONS "topline" rm.position = Except.ok m.position ∧
      opt_int_range 1 5 3 rm.speed = Except.ok m.speed ∧
      m.text = rm.text := by
  obtain ⟨mt, mc, mm, md, me, mch, mp, ms⟩ := m
  unfold validateOfflineMessage
  cases h1 : opt_one_of COLORS "green" rm.color with
  | error e => simp [ebind_err]
  | ok v1 =>
    simp only [ebind_ok]
    cases h2 : opt_one_of MODES "rotate" rm.mode with
    | error e => simp [ebind_err]
    | ok v2 =>
      simp only [ebind_ok]
      cases h3 : optField (one_of_lower EFFECTS) rm.effect with
      | error e => simp [ebind_err]
      | ok v3 =>
        simp only [ebind_ok]
        cases h4 : opt_one_of CHARSETS "7high" rm.charset with
        | error e => simp [ebind_err]
        | ok v4 =>
          simp only [ebind_ok]
          cases h5 : opt_one_of POSITIONS "topline" rm.position with
          | error e => simp [ebind_err]
          | ok v5 =>
            simp only [ebind_ok]
            cases h6 : opt_int_range 1 5 3 rm.speed with
            | error e => simp
            | ok v6 =>
              simp only [Except.map_ok, Except.ok.injEq,
                OfflineMessage.mk.injEq]
              constructor
              · rintro ⟨rfl, rfl, rfl, rfl, rfl, rfl, rfl, rfl⟩
                simp
              · rintro ⟨⟨rfl⟩, ⟨rfl⟩, rfl, ⟨rfl⟩, ⟨rfl⟩, ⟨rfl⟩, ⟨rfl⟩, rfl⟩
                simp

theorem validateDefaults_ok_iff (rd : RawDefaults) (d : Defaults) :
    validateDefaults rd = Except.ok d ↔
      opt_one_of COLORS "green" rd.color = Except.ok d.color ∧
      opt_one_of MODES "rotate" rd.mode = Except.ok d.mode ∧
      opt_one_of CHARSETS "7high" rd.charset = Except.ok d.charset ∧
      opt_one_of POSITIONS "topline" rd.position = Except.ok d.position ∧
      opt_int_range 1 5 3 rd.speed = Except.ok d.speed ∧
      opt_one_of EFFECTS "twinkle" rd.effect = Except.ok d.effect := by
  obtain ⟨dc, dm, dch, dp, ds, de⟩ := d
  unfold validateDefaults
  cases h1 : opt_one_of COLORS "green" rd.color with
  | error e => simp [ebind_err]
  | ok v1 =>
    simp only [ebind_ok]
    cases h2 : opt_one_of MODES "rotate" rd.mode with
    | error e => simp [ebind_err]
    | ok v2 =>
      simp only [ebind_ok]
      cases h3 : opt_one_of CHARSETS "7high" rd.charset with
      | error e => simp [ebind_err]
      | ok v3 =>
        simp only [ebind_ok]
        cases h4 : opt_one_of POSITIONS "topline" rd.position with
        | error e => simp [ebind_err]
        | ok v4 =>
          simp only [ebind_ok]
          cases h5 : opt_int_range 1 5 3 rd.speed with
          | error e => simp [ebind_err]
          | ok v5 =>
            simp only [ebind_ok]
            cases h6 : opt_one_of EFFECTS "twinkle" rd.effect with
            | error e => simp
            | ok v6 =>
              simp only [Except.map_ok, Except.ok.injEq, Defaults.mk.injEq]
              constructor
              · rintro ⟨rfl, rfl, rfl, rfl, rfl, rfl⟩
                simp
              · rintro ⟨⟨rfl⟩, ⟨rfl⟩, ⟨rfl⟩, ⟨rfl⟩, ⟨rfl⟩, ⟨rfl⟩⟩
                simp

theorem validateConfig_ok_iff (rc : RawConfig) (cfg : Config) :
    validateConfig rc = Except.ok cfg ↔
      opt_one_of SIGN_TYPE_KEYS "all" rc.sign_type = Except.ok cfg.sign_type ∧
      opt_address rc.address = Except.ok cfg.address ∧
      opt_int_range 1 26 5 rc.max_files = Except.ok cfg.max_files ∧
      optField validateDefaults rc.defaults = Except.ok cfg.defaults ∧
      optField (fun ms => ms.mapM validateOfflineMessage) rc.offline_messages
        = Except.ok cfg.offline_messages ∧
      optField validateClock rc.clock = Except.ok cfg.clock ∧
      optField validatePriority rc.priority = Except.ok cfg.priority := by
  obtain ⟨cs, ca, cm, cd, co, ck, cp⟩ := cfg
  unfold validateConfig
  cases h1 : opt_one_of SIGN_TYPE_KEYS "all" rc.sign_type with
  | error e => simp [ebind_err]
  | ok v1 =>
    simp only [ebind_ok]
    cases h2 : opt_address rc.address with
    | error e => simp [ebind_err]
    | ok v2 =>
      simp only [ebind_ok]
      cases h3 : opt_int_range 1 26 5 rc.max_files with
      | error e => simp [ebind_err]
      | ok v3 =>
        simp only [ebind_ok]
        cases h4 : optField validateDefaults rc.defaults with
        | error e => simp [ebind_err]
        | ok v4 =>
          simp only [ebind_ok]
          cases h5 : optField (fun ms => ms.mapM validateOfflineMessage)
              rc.offline_messages with
          | error e => simp [ebind_err]
          | ok v5 =>
            simp only [ebind_ok]
            cases h6 : optField validateClock rc.clock with
            | error e => simp [ebind_err]
            | ok v6 =>
              simp only [ebind_ok]
              cases h7 : optField validatePriority rc.priority with
              | error e => simp
              | ok v7 =>
                simp only [Except.map_ok, Except.ok.injEq, Config.mk.injEq]
                constructor
                · rintro ⟨rfl, rfl, rfl, rfl, rfl, rfl, rfl⟩
                  simp
                · rintro ⟨⟨rfl⟩, ⟨rfl⟩, ⟨rfl⟩, ⟨rfl⟩, ⟨rfl⟩, ⟨rfl⟩, ⟨rfl⟩⟩
                  simp

theorem getNewsLoop_take_aux (items : List RssItem) :
    ∀ (c : Nat) (acc : List String), c < NUM_STORIES →
      getNewsLoop c items acc =
        acc ++ (items.map RssItem.title).take (NUM_STORIES - c) := by
  induction items with
  | nil => intro c acc _; simp [getNewsLoop]
  | cons item rest ih =>
    intro c acc hc
    rw [getNewsLoop]
    by_cases hstop : NUM_STORIES ≤ c + 1
    · have hc5 : c + 1 = NUM_STORIES := le_antisymm hc hstop
      have : NUM_STORIES - c = 1 := by omega
      simp [hstop, this]
    · have hlt : c + 1 < NUM_STORIES := lt_of_not_le hstop
      rw [if_neg hstop, ih (c + 1) _ hlt]
      have : NUM_STORIES - c = (NUM_STORIES - (c + 1)) + 1 := by omega
      simp [this]

/-- C8: for every RSS document, `getNews` returns at most `NUM_STORIES` (5)
titles, and those are exactly the titles of the first `min(5, total)` item
elements in document order. -/
theorem C8_getNews_first_five (root : List RssItem) :
    getNews root = (root.map RssItem.title).take NUM_STORIES ∧
    (getNews root).length ≤ NUM_STORIES := by
  have h := getNewsLoop_take_aux root 0 [] (by decide)
  have hg : getNews root = (root.map RssItem.title).take NUM_STORIES := by
    simpa [getNews] using h
  refine ⟨hg, ?_⟩
  rw [hg]
  simp [List.length_take]

/-- C9: every publish `sendToMqtt` performs goes to the topic
`MQTT_BASE_TOPIC ++ "/" ++ title` (i.e. `ledSign/feed/<title>`) with
`retain=True`, and when the client is not connected a connect to the broker
comes first. -/
theorem C9_sendToMqtt_topic_retain_connect (st : MqttState) (title : String)
    (msg : Option String) (t : String) (p : Option String) (r : Bool)
    (h : MqttAction.publish t p r ∈ (sendToMqtt st title msg).2) :
    t = MQTT_BASE_TOPIC ++ "/" ++ title ∧ r = true ∧
    (st.connected = false →
      (sendToMqtt st title msg).2.head? =
        some (MqttAction.connect MQTT_BROKER MQTT_PORT 60)) := by
  obtain ⟨connected⟩ := st
  cases connected <;>
    simp [sendToMqtt] at h ⊢ <;>
    simp_all

theorem C9_witness :
    "ledSign/feed/news/list" = MQTT_BASE_TOPIC ++ "/" ++ "news/list" ∧
    true = true ∧
    ((⟨false⟩ : MqttState).connected = false →
      (sendToMqtt ⟨false⟩ "news/list" (some "hello")).2.head? =
        some (MqttAction.connect MQTT_BROKER MQTT_PORT 60)) :=
  C9_sendToMqtt_topic_retain_connect ⟨false⟩ "news/list" (some "hello")
    "ledSign/feed/news/list" (some "hello") true (by decide)

/-- C10: `getTrivia` yields `None` exactly when the response status is not
200 (on a 200 response it yields the encoding of the first trivia object),
and `main` publishes whatever `getTrivia` produced — including `None` — to
the `trivia/question` title unconditionally. -/
theorem C10_trivia_none_published (facts : String) (resp : HttpResponse)
    (jokes : List String) (newsRoot : List RssItem) :
    (resp.status_code ≠ codes_ok → getTrivia resp = Except.ok none) ∧
    (∀ x rest, resp.status_code = codes_ok → resp.items = x :: rest →
      getTrivia resp = Except.ok (some x)) ∧
    (∀ t, getTrivia resp = Except.ok t →
      mainRun facts resp jokes newsRoot = Except.ok
        [MqttAction.connect MQTT_BROKER MQTT_PORT 60,
         MqttAction.publish (MQTT_BASE_TOPIC ++ "/" ++ "news/list")
           (some (jsonDumps (getNews newsRoot))) true,
         MqttAction.publish (MQTT_BASE_TOPIC ++ "/" ++ "jokes/list")
           (some (jsonDumps jokes)) true,
         MqttAction.publish (MQTT_BASE_TOPIC ++ "/" ++ "facts/list")
           (some facts) true,
         MqttAction.publish (MQTT_BASE_TOPIC ++ "/" ++ "trivia/question")
           t true]) := by
  refine ⟨?_, ?_, ?_⟩
  · intro hne
    simp [getTrivia, hne]
  · intro x rest hok hitems
    simp [getTrivia, hok, hitems]
  · intro t ht
    unfold mainRun
    rw [ht, ebind_ok]
    simp [sendToMqtt, epure]

theorem C10_witness :
    getTrivia ⟨404, []⟩ = Except.ok none ∧
    mainRun "facts" ⟨404, []⟩ ["joke"] [] = Except.ok
      [MqttAction.connect MQTT_BROKER MQTT_PORT 60,
       MqttAction.publish (MQTT_BASE_TOPIC ++ "/" ++ "news/list")
         (some (jsonDumps (getNews []))) true,
       MqttAction.publish (MQTT_BASE_TOPIC ++ "/" ++ "jokes/list")
         (some (jsonDumps ["joke"])) true,
       MqttAction.publish (MQTT_BASE_TOPIC ++ "/" ++ "facts/list")
         (some "facts") true,
       MqttAction.publish (MQTT_BASE_TOPIC ++ "/" ++ "trivia/question")
         none true] :=
  ⟨(C10_trivia_none_published "facts" ⟨404, []⟩ ["joke"] []).1 (by decide),
   (C10_trivia_none_published "facts" ⟨404, []⟩ ["joke"] []).2.2 none rfl⟩

/-- C1: for each of the seven closed enumeration lists, `cv.one_of(…,
lower=True)` accepts a value exactly when its lowercasing is in the list and
raises `cv.Invalid` otherwise; a bad enum value makes the whole schema
(`OFFLINE_MESSAGE_SCHEMA`, `CONFIG_SCHEMA`) reject the document, so it never
reaches `to_code`. -/
theorem C1_enum_membership :
    (∀ v : String,
      ∀ L ∈ [SIGN_TYPE_KEYS, COLORS, MODES, EFFECTS, CHARSETS, POSITIONS,
             CLOCK_FORMATS],
        (one_of_lower L v = Except.ok (str_lower v) ↔ str_lower v ∈ L) ∧
        (str_lower v ∉ L → one_of_lower L v = Except.error "Unknown value")) ∧
    (∀ (rm : RawOfflineMessage) (w : String), rm.color = some w →
      str_lower w ∉ COLORS → isOkE (validateOfflineMessage rm) = false) ∧
    (∀ (rc : RawConfig) (w : String), rc.sign_type = some w →
      str_lower w ∉ SIGN_TYPE_KEYS → isOkE (validateConfig rc) = false) := by
  refine ⟨?_, ?_, ?_⟩
  · intro v L _
    by_cases hmem : str_lower v ∈ L <;> simp [one_of_lower, hmem]
  · intro rm w hw hnot
    cases he : validateOfflineMessage rm with
    | error e => simp [isOkE]
    | ok m =>
      rw [validateOfflineMessage_ok_iff] at he
      rw [hw] at he
      simp [opt_one_of, one_of_lower, hnot] at he
  · intro rc w hw hnot
    cases he : validateConfig rc with
    | error e => simp [isOkE]
    | ok cfg =>
      rw [validateConfig_ok_iff] at he
      rw [hw] at he
      simp [opt_one_of, one_of_lower, hnot] at he

theorem C1_witness :
    ((one_of_lower COLORS "RED" = Except.ok (str_lower "RED") ↔
        str_lower "RED" ∈ COLORS) ∧
     (str_lower "RED" ∉ COLORS →
        one_of_lower COLORS "RED" = Except.error "Unknown value")) ∧
    isOkE (validateOfflineMessage
      { text := "x", color := some "purple" }) = false ∧
    isOkE (validateConfig { sign_type := some "nosuchsign" }) = false :=
  ⟨C1_enum_membership.1 "RED" COLORS (by simp),
   C1_enum_membership.2.1 { text := "x", color := some "purple" } "purple"
     rfl (by decide),
   C1_enum_membership.2.2 { sign_type := some "nosuchsign" } "nosuchsign"
     rfl (by decide)⟩

/-- C4: `validate_address` accepts exactly the strings of length two,
returning them unchanged, and rejects everything else with the error
"Address must be exactly 2 characters"; a validated address lands verbatim
in the config and in the `set_address` call of `to_code`. -/
theorem C4_validate_address :
    (∀ v : String,
      (validate_address v = Except.ok v ↔ v.length = 2) ∧
      (v.length ≠ 2 → validate_address v =
        Except.error "Address must be exactly 2 characters")) ∧
    (∀ (rc : RawConfig) (a : String) (cfg : Config), rc.address = some a →
      validateConfig rc = Except.ok cfg →
      cfg.address = a ∧ Call.setAddress a ∈ to_code cfg) := by
  constructor
  · intro v
    by_cases h2 : v.length = 2 <;> simp [validate_address, h2]
  · intro rc a cfg ha h
    rw [validateConfig_ok_iff] at h
    have haddr := h.2.1
    rw [ha] at haddr
    by_cases h2 : a.length = 2
    · simp [opt_address, validate_address, h2] at haddr
      refine ⟨haddr.symm, ?_⟩
      rw [haddr]
      simp [to_code]
    · simp [opt_address, validate_address, h2] at haddr

theorem C4_witness :
    (validate_address "AB" = Except.ok "AB" ↔ ("AB".length = 2)) ∧
    ("ABC".length ≠ 2 → validate_address "ABC" =
      Except.error "Address must be exactly 2 characters") ∧
    ((⟨"all", "AB", 5, none, none, none, none⟩ : Config).address = "AB" ∧
      Call.setAddress "AB" ∈
        to_code ⟨"all", "AB", 5, none, none, none, none⟩) :=
  ⟨((C4_validate_address.1 "AB").1),
   ((C4_validate_address.1 "ABC").2),
   C4_validate_address.2 { address := some "AB" } "AB"
     ⟨"all", "AB", 5, none, none, none, none⟩ rfl rfl⟩

/-- C5: the `max_files` key is accepted exactly for integers 1–26 (via
`cv.int_range(min=1, max=26)`), defaults to 5 when omitted, and the
validated configuration carries exactly that value. -/
theorem C5_max_files_range :
    (∀ n : Int,
      ((1 ≤ n ∧ n ≤ 26) → opt_int_range 1 26 5 (some n) = Except.ok n) ∧
      (¬(1 ≤ n ∧ n ≤ 26) → opt_int_range 1 26 5 (some n) =
        Except.error "int out of range")) ∧
    opt_int_range 1 26 5 none = Except.ok 5 ∧
    (∀ (rc : RawConfig) (cfg : Config), validateConfig rc = Except.ok cfg →
      ((rc.max_files = none → cfg.max_files = 5) ∧
       (∀ n, rc.max_files = some n →
          cfg.max_files = n ∧ 1 ≤ n ∧ n ≤ 26))) := by
  refine ⟨?_, rfl, ?_⟩
  · intro n
    constructor <;> intro h <;> simp [opt_int_range, int_range, h]
  · intro rc cfg h
    rw [validateConfig_ok_iff] at h
    have hmf := h.2.2.1
    constructor
    · intro hn
      rw [hn] at hmf
      simp [opt_int_range] at hmf
      exact hmf.symm
    · intro n hn
      rw [hn] at hmf
      by_cases hr : 1 ≤ n ∧ n ≤ 26
      · simp [opt_int_range, int_range, hr] at hmf
        exact ⟨hmf.symm, hr⟩
      · simp [opt_int_range, int_range, hr] at hmf

theorem C5_witness :
    ((1 ≤ (7 : Int) ∧ (7 : Int) ≤ 26) →
      opt_int_range 1 26 5 (some 7) = Except.ok 7) ∧
    (¬(1 ≤ (27 : Int) ∧ (27 : Int) ≤ 26) →
      opt_int_range 1 26 5 (some 27) = Except.error "int out of range") ∧
    opt_int_range 1 26 5 none = Except.ok 5 ∧
    ((⟨"all", "00", 5, none, none, none, none⟩ : Config).max_files = 5) :=
  ⟨(C5_max_files_range.1 7).1,
   (C5_max_files_range.1 27).2,
   C5_max_files_range.2.1,
   (C5_max_files_range.2.2 {} ⟨"all", "00", 5, none, none, none, none⟩
      rfl).1 rfl⟩

/-- C6: the `speed` key of both `OFFLINE_MESSAGE_SCHEMA` and
`DEFAULTS_SCHEMA` is accepted exactly for integers 1–5 (via
`cv.int_range(min=1, max=5)`) and defaults to 3 when omitted; an
out-of-range speed makes the offline-message schema reject. -/
theorem C6_speed_range :
    (∀ n : Int,
      ((1 ≤ n ∧ n ≤ 5) → opt_int_range 1 5 3 (some n) = Except.ok n) ∧
      (¬(1 ≤ n ∧ n ≤ 5) → opt_int_range 1 5 3 (some n) =
        Except.error "int out of range")) ∧
    opt_int_range 1 5 3 none = Except.ok 3 ∧
    (∀ (rm : RawOfflineMessage) (m : OfflineMessage),
      validateOfflineMessage rm = Except.ok m →
      ((rm.speed = none → m.speed = 3) ∧
       (∀ n, rm.speed = some n → m.speed = n ∧ 1 ≤ n ∧ n ≤ 5))) ∧
    (∀ (rd : RawDefaults) (d : Defaults),
      validateDefaults rd = Except.ok d →
      ((rd.speed = none → d.speed = 3) ∧
       (∀ n, rd.speed = some n → d.speed = n ∧ 1 ≤ n ∧ n ≤ 5))) ∧
    (∀ (rm : RawOfflineMessage) (n : Int), rm.speed = some n →
      ¬(1 ≤ n ∧ n ≤ 5) → isOkE (validateOfflineMessage rm) = false) := by
  refine ⟨?_, rfl, ?_, ?_, ?_⟩
  · intro n
    constructor <;> intro h <;> simp [opt_int_range, int_range, h]
  · intro rm m h
    rw [validateOfflineMessage_ok_iff] at h
    have hs := h.2.2.2.2.2.2.1
    constructor
    · intro hn
      rw [hn] at hs
      simp [opt_int_range] at hs
      exact hs.symm
    · intro n hn
      rw [hn] at hs
      by_cases hr : 1 ≤ n ∧ n ≤ 5
      · simp [opt_int_range, int_range, hr] at hs
        exact ⟨hs.symm, hr⟩
      · simp [opt_int_range, int_range, hr] at hs
  · intro rd d h
    rw [validateDefaults_ok_iff] at h
    have hs := h.2.2.2.2.1
    constructor
    · intro hn
      rw [hn] at hs
      simp [opt_int_range] at hs
      exact hs.symm
    · intro n hn
      rw [hn] at hs
      by_cases hr : 1 ≤ n ∧ n ≤ 5
      · simp [opt_int_range, int_range, hr] at hs
        exact ⟨hs.symm, hr⟩
      · simp [opt_int_range, int_range, hr] at hs
  · intro rm n hn hr
    cases he : validateOfflineMessage rm with
    | error e => simp [isOkE]
    | ok m =>
      rw [validateOfflineMessage_ok_iff] at he
      have hs := he.2.2.2.2.2.2.1
      rw [hn] at hs
      simp [opt_int_range, int_range, hr] at hs

theorem C6_witness :
    ((1 ≤ (4 : Int) ∧ (4 : Int) ≤ 5) →
      opt_int_range 1 5 3 (some 4) = Except.ok 4) ∧
    (¬(1 ≤ (6 : Int) ∧ (6 : Int) ≤ 5) →
      opt_int_range 1 5 3 (some 6) = Except.error "int out of range") ∧
    opt_int_range 1 5 3 none = Except.ok 3 ∧
    ((⟨"x", "green", "rotate", 10000, none, "7high", "topline", 3⟩ :
        OfflineMessage).speed = 3) ∧
    isOkE (validateOfflineMessage { text := "x", speed := some 9 }) = false :=
  ⟨(C6_speed_range.1 4).1,
   (C6_speed_range.1 6).2,
   C6_speed_range.2.1,
   (C6_speed_range.2.2.1 { text := "x" }
      ⟨"x", "green", "rotate", 10000, none, "7high", "topline", 3⟩ rfl).1 rfl,
   C6_speed_range.2.2.2.2 { text := "x", speed := some 9 } 9 rfl (by decide)⟩

/-- C7: for a validated configuration with offline messages, the
`add_offline_message` calls emitted by `to_code` are exactly one call per
configured message, in list order, carrying that message's text, color,
mode, duration, effect, charset, position and speed, with an omitted effect
passed as the empty string. -/
theorem C7_offline_messages_codegen :
    (∀ (cfg : Config) (ms : List OfflineMessage),
      cfg.offline_messages = some ms →
      ((to_code cfg).filter Call.isAddOffline = ms.map offlineCall ∧
       ((to_code cfg).filter Call.isAddOffline).length = ms.length)) ∧
    (∀ m : OfflineMessage, m.effect = none →
      offlineCall m = Call.addOfflineMessage m.text m.color m.mode m.duration
        "" m.charset m.position m.speed) := by
  constructor
  · intro cfg ms h
    obtain ⟨st, ad, mf, df, om, ck, pr⟩ := cfg
    simp only at h
    subst h
    have hfilter : (to_code ⟨st, ad, mf, df, some ms, ck, pr⟩).filter
        Call.isAddOffline = ms.map offlineCall := by
      simp only [to_code, List.filter_append]
      cases df <;> cases ck <;> cases pr <;>
        simp [Call.isAddOffline, List.filter_map, Function.comp,
          offlineCall] <;>
        rw [show List.filter (Call.isAddOffline ∘ offlineCall) ms = ms from
          List.filter_eq_self.mpr (fun a _ => rfl)]
    exact ⟨hfilter, by rw [hfilter]; simp⟩
  · intro m hm
    simp [offlineCall, hm]

theorem C7_witness :
    ((to_code ⟨"all", "00", 5, none,
        some [⟨"hi", "green", "rotate", 10000, none, "7high", "topline", 3⟩],
        none, none⟩).filter Call.isAddOffline =
      [⟨"hi", "green", "rotate", 10000, none, "7high", "topline",
        3⟩].map offlineCall ∧
     ((to_code ⟨"all", "00", 5, none,
        some [⟨"hi", "green", "rotate", 10000, none, "7high", "topline", 3⟩],
        none, none⟩).filter Call.isAddOffline).length = 1) ∧
    offlineCall ⟨"hi", "green", "rotate", 10000, none, "7high", "topline", 3⟩
      = Call.addOfflineMessage "hi" "green" "rotate" 10000 "" "7high"
          "topline" 3 :=
  ⟨C7_offline_messages_codegen.1
     ⟨"all", "00", 5, none,
       some [⟨"hi", "green", "rotate", 10000, none, "7high", "topline", 3⟩],
       none, none⟩
     [⟨"hi", "green", "rotate", 10000, none, "7high", "topline", 3⟩] rfl,
   C7_offline_messages_codegen.2
     ⟨"hi", "green", "rotate", 10000, none, "7high", "topline", 3⟩ rfl⟩

/-- C2 counterexample: configure `priority.default_duration: 10s` (stored
as 10000 ms by `PRIORITY_SCHEMA`) and invoke `betabrite.priority` without a
duration; the action schema fills its own default of 25 s and
`set_duration` receives 25, not the configured 10000. -/
theorem C2_counterexample :
    validatePriority
      { warning_duration := none, default_duration := some 10000 } =
      Except.ok { warning_duration := 2500, default_duration := 10000 } ∧
    betabrite_priority_action_to_code
      (validatePriorityAction { text := "alert", duration := none }) =
      [ActionCall.setMessage "alert", ActionCall.setDuration 25] ∧
    (validatePriorityAction { text := "alert", duration := none }).duration ≠
      ({ warning_duration := 2500, default_duration := 10000 } :
        PriorityConfig).default_duration :=
  ⟨rfl, rfl, by decide⟩

/-- C2 (amended): for every invocation of the `betabrite.priority` action
in which the caller does not specify a duration, the duration delivered to
the component via `set_duration` is the action schema's own fixed default
of 25 (seconds, from `cv.Optional(CONF_DURATION, default="25s")` with
`cv.positive_time_period_seconds`), regardless of the configured
`priority.default_duration` (which `PRIORITY_SCHEMA` stores in
milliseconds and which never flows into the action's code generation). -/
theorem C2_amended_fixed_default (a : RawPriorityAction)
    (ha : a.duration = none) :
    betabrite_priority_action_to_code (validatePriorityAction a) =
      [ActionCall.setMessage a.text, ActionCall.setDuration 25] := by
  simp [betabrite_priority_action_to_code, validatePriorityAction, ha]

theorem C2_witness :
    betabrite_priority_action_to_code
      (validatePriorityAction { text := "hello", duration := none }) =
      [ActionCall.setMessage "hello", ActionCall.setDuration 25] :=
  C2_amended_fixed_default { text := "hello", duration := none } rfl

/-- C3 counterexample: a configuration with `max_files: 1` and one offline
message passes `CONFIG_SCHEMA` validation and reaches `to_code`, which even
emits the offline message's `add_offline_message` call — nothing rejects
`max_files < 3` at configuration time. -/
theorem C3_counterexample :
    validateConfig
      { max_files := some 1, offline_messages := some [{ text := "hi" }] } =
      Except.ok ⟨"all", "00", 1, none,
        some [⟨"hi", "green", "rotate", 10000, none, "7high", "topline", 3⟩],
        none, none⟩ ∧
    Call.addOfflineMessage "hi" "green" "rotate" 10000 "" "7high" "topline" 3
      ∈ to_code ⟨"all", "00", 1, none,
        some [⟨"hi", "green", "rotate", 10000, none, "7high", "topline", 3⟩],
        none, none⟩ :=
  ⟨rfl, by decide⟩

/-- C3 (amended): configuration validation constrains `max_files` only to
the integer range 1–26, independently of how many offline messages are
configured or of the reserved priority/clock roles; in particular every
configuration with 1 ≤ max_files ≤ 26 and one offline message validates
successfully and reaches code generation (no `AllocatorExhausted`-style
check exists at configuration time in this component). -/
theorem C3_amended_no_cross_check (n : Int) (text : String)
    (h1 : 1 ≤ n) (h2 : n ≤ 26) :
    validateConfig
      { max_files := some n, offline_messages := some [{ text := text }] } =
      Except.ok ⟨"all", "00", n, none,
        some [⟨text, "green", "rotate", 10000, none, "7high", "topline", 3⟩],
        none, none⟩ := by
  rw [validateConfig_ok_iff]
  exact ⟨rfl, rfl, by simp [opt_int_range, int_range, h1, h2],
    rfl, rfl, rfl, rfl⟩

theorem C3_witness :
    validateConfig
      { max_files := some 2, offline_messages := some [{ text := "yo" }] } =
      Except.ok ⟨"all", "00", 2, none,
        some [⟨"yo", "green", "rotate", 10000, none, "7high", "topline", 3⟩],
        none, none⟩ :=
  C3_amended_no_cross_check 2 "yo" (by decide) (by decide)

end Theorems
